import Mathlib

/-!
Verification development for the migration plan generator
(`pkg/migration/plan_generator.go` of the upjet repository).

The data model and all operations below are shallow embeddings of the Go
source: pure Go functions become Lean functions, in-place mutation becomes
explicit state passing, `error` returns become `Option String` / `Except
String`.  External collaborators whose bodies are not part of the provided
source (the converter plugins, the sink `Target`, the scheme decoder, the
step-emitting helpers) are modelled as function-valued fields ("oracles"),
so every theorem quantifies over all of their possible behaviours unless a
concrete behaviour is supplied.
-/

namespace Migration

/-- `schema.GroupVersionKind`: the (group, version, kind) type identifier. -/
structure GroupVersionKind where
  group : String
  version : String
  kind : String
deriving DecidableEq

/-- `reflect.ValueOf(gvk).IsZero()`: every component is the empty string. -/
def GroupVersionKind.isZero (g : GroupVersionKind) : Bool :=
  g.group == "" && g.version == "" && g.kind == ""

/-- `GroupVersion.String()`: `group/version`, or just `version` for the core group. -/
def apiVersionOf (g : GroupVersionKind) : String :=
  if g.group == "" then g.version else g.group ++ "/" ++ g.version

/-- `xpmetav1.ConfigurationGroupVersionKind`. -/
def ConfigurationGroupVersionKindV1 : GroupVersionKind :=
  ⟨"meta.pkg.crossplane.io", "v1", "Configuration"⟩

/-- `xpmetav1alpha1.ConfigurationGroupVersionKind`. -/
def ConfigurationGroupVersionKindV1Alpha1 : GroupVersionKind :=
  ⟨"meta.pkg.crossplane.io", "v1alpha1", "Configuration"⟩

/-- `xpv1.CompositionGroupVersionKind`. -/
def CompositionGroupVersionKind : GroupVersionKind :=
  ⟨"apiextensions.crossplane.io", "v1", "Composition"⟩

/-- A patch entry of a composed template or a patch-set.  Its internal
structure is irrelevant to every claim, so it is kept opaque. -/
abbrev Patch := Nat

/-- `xpv1.PatchSet`: a named, reusable group of patches. -/
structure PatchSet where
  name : String
  patches : List Patch
deriving DecidableEq

/-- A plain (managed) resource document: type identifier, object metadata
name and generate-name prefix, and the remaining document content kept
opaque in `payload`.  Plays the role both of `resource.Managed` (the typed
view handed to resource converters) and of a composed template's decoded
base document. -/
structure Resource where
  gvk : GroupVersionKind
  name : String
  generateName : String
  payload : Nat
deriving DecidableEq

/-- `xpv1.ComposedTemplate`: one entry of a Composition, a base resource
document plus patches and an optional name. -/
structure ComposedTemplate where
  name : Option String
  base : Resource
  patches : List Patch
deriving DecidableEq

/-- `unstructured.Unstructured`: a generically typed resource document.
Compositions additionally carry their decoded `spec.patchSets` and
`spec.resources` so that `convertToComposition` is a projection. -/
structure Unstructured where
  gvk : GroupVersionKind
  name : String
  generateName : String
  patchSets : List PatchSet
  resources : List ComposedTemplate
  payload : Nat
deriving DecidableEq

/-- The role tag on an envelope (`o.Metadata.Category`). -/
inductive Category where
  | composite
  | claim
  | other
deriving DecidableEq

/-- The classification metadata travelling with an envelope. -/
structure Metadata where
  category : Category
deriving DecidableEq

/-- `UnstructuredWithMetadata`: the object envelope. -/
structure UnstructuredWithMetadata where
  object : Unstructured
  metadata : Metadata
deriving DecidableEq

/-- The typed view of a package Configuration handed to configuration
converters (`xpmetav1.Configuration` / `xpmetav1alpha1.Configuration`). -/
structure Configuration where
  name : String
  payload : Nat
deriving DecidableEq

/-- The typed view of a Composition (`xpv1.Composition`), restricted to the
fields the generator touches. -/
structure Composition where
  name : String
  patchSets : List PatchSet
  resources : List ComposedTemplate
  payload : Nat
deriving DecidableEq

/-- `corev1.ObjectReference` as used for the converted-managed-resource map key. -/
structure ObjectReference where
  kind : String
  name : String
  apiVersion : String
deriving DecidableEq

/-- `ToSanitizedUnstructured`: re-encode a typed managed resource as an
unstructured document. -/
def ToSanitizedUnstructured (m : Resource) : Unstructured :=
  { gvk := m.gvk, name := m.name, generateName := m.generateName,
    patchSets := [], resources := [], payload := m.payload }

/-- `FromRawExtension` applied to a composed template's base: decode the
embedded raw document into an unstructured object. -/
def fromRawExtension (r : Resource) : Unstructured :=
  { gvk := r.gvk, name := r.name, generateName := r.generateName,
    patchSets := [], resources := [], payload := r.payload }

/-- `u.Object.MarshalJSON()` followed by storing into `RawExtension{Raw: buff}`:
re-encode an unstructured object as a template base document. -/
def toRawExtension (u : Unstructured) : Resource :=
  { gvk := u.gvk, name := u.name, generateName := u.generateName, payload := u.payload }

/-- `convertToComposition`: decode an unstructured object into the typed
Composition view. -/
def convertToComposition (u : Unstructured) : Composition :=
  { name := u.name, patchSets := u.patchSets, resources := u.resources, payload := u.payload }

/-- `ToSanitizedUnstructured(&comp)`: re-encode a typed Composition. -/
def sanitizeComposition (c : Composition) : Unstructured :=
  { gvk := CompositionGroupVersionKind, name := c.name, generateName := "",
    patchSets := c.patchSets, resources := c.resources, payload := c.payload }

/-- `toConfiguration`: decode an unstructured object into the typed
Configuration view (a collaborator not in the provided source; modelled as
the evident projection). -/
def toConfiguration (u : Unstructured) : Configuration :=
  { name := u.name, payload := u.payload }

/-- `ToSanitizedUnstructured(conf)` for a typed Configuration. -/
def sanitizeConfiguration (gvk : GroupVersionKind) (c : Configuration) : Unstructured :=
  { gvk := gvk, name := c.name, generateName := "",
    patchSets := [], resources := [], payload := c.payload }

/-- `errors.Wrap(err, msg)` of github.com/pkg/errors: `msg ++ ": " ++ err`. -/
def wrapErr (msg err : String) : String := msg ++ ": " ++ err

/-! Error message constants of the source file. -/

def errSourceHasNext := "failed to generate migration plan: Could not check next object from source"
def errSourceNext := "failed to generate migration plan: Could not get next object from source"
def errResourceMigrate := "failed to migrate resource"
def errCompositePause := "failed to pause composite resource"
def errCompositesEdit := "failed to edit composite resources"
def errCompositesStart := "failed to start composite resources"
def errComposedTemplateBase := "failed to migrate the base of a composed template"
def errComposedTemplateMigrate := "failed to migrate the composed templates of the composition"
def errClaimsEdit := "failed to edit claims"
def errPlanGeneration := "failed to generate the migration plan"
def errMissingGVK := "managed resource is missing its GVK. Resource converters must set GVKs on any managed resources they newly generate."

/-- `fmt.Sprintf(errCompositionMigrateFmt, name)`. -/
def errCompositionMigrate (name : String) : String :=
  "failed to migrate the composition: " ++ name

/-- `fmt.Sprintf(errConfigurationMigrateFmt, name)`. -/
def errConfigurationMigrate (name : String) : String :=
  "failed to migrate the configuration: " ++ name

def versionV010 : String := "0.1.0"

/-! Converter capability types (collaborator plugins, modelled as functions). -/

/-- `ResourceConverter.Resource(mg) ([]resource.Managed, error)`. -/
abbrev ResourceConverter := Resource → Except String (List Resource)

/-- `ComposedTemplateConverter.ComposedTemplate(sourceTemplate, convertedTemplates...)`:
mutates the replacement templates in place; modelled as returning the
updated replacement list. -/
abbrev ComposedTemplateConverter :=
  ComposedTemplate → List ComposedTemplate → Except String (List ComposedTemplate)

/-- `PatchSetConverter.PatchSets(psMap)`: converts the name-keyed patch-set
map in place; modelled as returning the updated association list. -/
abbrev PatchSetConverterFn :=
  List (String × PatchSet) → Except String (List (String × PatchSet))

/-- One entry of `registry.patchSetConverters`: a name pattern and a
converter, either of which may be nil. -/
structure PatchSetConverterEntry where
  re : Option (String → Bool)
  converter : Option PatchSetConverterFn

/-- The two version-specific hooks of a `ConfigurationConverter`. -/
structure ConfigurationConverter where
  configurationV1 : Configuration → Except String Configuration
  configurationV1Alpha1 : Configuration → Except String Configuration

/-- One entry of `registry.configurationConverters`. -/
structure ConfigurationConverterEntry where
  re : Option (String → Bool)
  converter : Option ConfigurationConverter

/-- `toManagedResource(scheme, u) (resource.Managed, bool, error)` is a
collaborator not in the provided source; the scheme is modelled as an
oracle returning either the decoded managed resource together with the
is-a-managed-resource flag, or an error. -/
abbrev Scheme := Unstructured → Except String (Resource × Bool)

/-- The converter `Registry`: resource and composed-template converters are
keyed by exact type identifier, patch-set and configuration converters are
(pattern, converter) lists applied in registration order. -/
structure Registry where
  resourceConverters : GroupVersionKind → Option ResourceConverter
  templateConverters : GroupVersionKind → Option ComposedTemplateConverter
  patchSetConverters : List PatchSetConverterEntry
  configurationConverters : List ConfigurationConverterEntry
  scheme : Scheme

/-- A generated `Step`.  The exact payloads mirror what the source attaches
to each step kind; `custom` stands for the steps added by the external
`addStepsForManagedResource` collaborator and by the batch passes. -/
inductive Step where
  | pauseComposite (u : UnstructuredWithMetadata)
  | startComposite (u : UnstructuredWithMetadata)
  | editComposite (u : UnstructuredWithMetadata)
  | editClaim (u : UnstructuredWithMetadata)
  | newManagedResource (u : UnstructuredWithMetadata)
  | startManagedResource (u : UnstructuredWithMetadata)
  | newComposition (u : UnstructuredWithMetadata)
  | editConfiguration (source : Unstructured) (target : UnstructuredWithMetadata)
      (versionedName : String)
  | custom (id : Nat)
deriving DecidableEq

/-- The `Plan`: a step accumulator (`Spec.stepMap`, deduplicated by step
key), the committed ordered step list (`Spec.Steps`), and an instrumentation
counter recording how many times `commitSteps` ran.
Modelled from the spec: the step map is keyed so that re-deriving the same
step is a no-op, and `commitSteps` flushes the accumulated steps into the
committed list. -/
structure Plan where
  version : String
  stepMap : List Step
  steps : List Step
  commitCount : Nat
deriving DecidableEq

/-- Add a step to the accumulator, deduplicating by its key. -/
def addStep (p : Plan) (s : Step) : Plan :=
  if p.stepMap.contains s then p else { p with stepMap := p.stepMap ++ [s] }

/-- `commitSteps`: flush the accumulated steps into the committed list.
Modelled from the spec: its body is not part of the provided source. -/
def commitSteps (p : Plan) : Plan :=
  { p with steps := p.stepMap, commitCount := p.commitCount + 1 }

/-- The mutable state threaded through one `convert` call: the plan under
construction, the accumulators of the main pass, and the position in the
random-suffix stream. -/
structure ConvState where
  plan : Plan
  convertedMR : List (ObjectReference × List UnstructuredWithMetadata)
  convertedComposition : List (String × String)
  composites : List UnstructuredWithMetadata
  claims : List UnstructuredWithMetadata
  rnd : Nat
deriving DecidableEq

/-- The `PlanGenerator`: configuration plus the external collaborators
(modelled as oracles).  `targetSink` stands for the sink write performed by
every step helper; `randomSuffix` is the `rand.String(5)` stream indexed by
draw position; `patchValid` is the patch schema-conformance check used by
`removeInvalidPatches`; `addStepsForMR` and the three batch-pass step
builders are the collaborator calls whose bodies are not in the provided
source. -/
structure PlanGenerator where
  registry : Registry
  ErrorOnInvalidPatchSchema : Bool
  SkipGVKs : List GroupVersionKind
  targetSink : Step → Option String
  randomSuffix : Nat → String
  patchValid : GroupVersionKind → GroupVersionKind → Patch → Except String Bool
  addStepsForMR : UnstructuredWithMetadata → Except String (List Step)
  stepEditComposites : List UnstructuredWithMetadata →
    List (ObjectReference × List UnstructuredWithMetadata) →
    List (String × String) → Except String (List Step)
  stepStartComposites : List UnstructuredWithMetadata → Except String (List Step)
  stepEditClaims : List UnstructuredWithMetadata → List (String × String) →
    Except String (List Step)

/-- `assertGVK`: fail if any produced resource carries the zero type
identifier. -/
def assertGVK (resources : List Resource) : Option String :=
  if resources.any (fun r => r.gvk.isZero) then some errMissingGVK else none

/-- `assertMetadataName`: outside a composition context, any produced
resource lacking both a name and a generate-name prefix receives a
generate-name prefix derived from the parent's name. -/
def assertMetadataName (parentName : String) (resources : List Resource) : List Resource :=
  resources.map fun r =>
    if r.name.length != 0 || r.generateName.length != 0 then r
    else { r with generateName := parentName ++ "-" }

/-- `toManagedResource` as used at line 242 of the source, where only the
boolean is consulted and errors are discarded. -/
def isManagedResource (pg : PlanGenerator) (u : Unstructured) : Bool :=
  match pg.registry.scheme u with
  | .ok (_, ok) => ok
  | .error _ => false

/-- `convertResource` (source lines 264-293).  Returns the Go triple
`([]UnstructuredWithMetadata, bool, error)`; `none` for the list models the
nil slice returned on the error paths. -/
def convertResource (pg : PlanGenerator) (o : UnstructuredWithMetadata)
    (compositionContext : Bool) :
    Option (List UnstructuredWithMetadata) × Bool × Option String :=
  let gvk := o.object.gvk
  match pg.registry.resourceConverters gvk with
  | none => (some [o], false, none)
  | some conv =>
    match pg.registry.scheme o.object with
    | .error e => (none, false, some (wrapErr errResourceMigrate e))
    | .ok (mg, _) =>
      match conv mg with
      | .error e => (none, false, some (wrapErr errResourceMigrate e))
      | .ok resources =>
        match assertGVK resources with
        | some e => (none, true, some (wrapErr errResourceMigrate e))
        | none =>
          let resources :=
            if !compositionContext then assertMetadataName mg.name resources
            else resources
          (some (resources.map fun m =>
            { object := ToSanitizedUnstructured m, metadata := o.metadata }), true, none)

/-- `isGVKSkipped` (source lines 406-415): a skip-list entry matches the
source type identifier when each of its non-empty components equals the
corresponding component (an empty component is a wildcard). -/
def isGVKSkipped (pg : PlanGenerator) (sourceGVK : GroupVersionKind) : Bool :=
  pg.SkipGVKs.any fun gvk =>
    (gvk.group.length == 0 || gvk.group == sourceGVK.group) &&
    (gvk.version.length == 0 || gvk.version == sourceGVK.version) &&
    (gvk.kind.length == 0 || gvk.kind == sourceGVK.kind)

/-- `removeInvalidPatches`.  Modelled from the spec: its body is not part
of the provided source.  It removes the patches on the target template that
no longer conform to the migration source or target schema, consulting the
conformance oracle `patchValid`; when the oracle fails the check, the
generator either aborts (if `ErrorOnInvalidPatchSchema`) or silently drops
the patch.  It never touches the template's name. -/
def filterValidPatches (pg : PlanGenerator) (gvkSource gvkTarget : GroupVersionKind) :
    List Patch → Except String (List Patch)
  | [] => .ok []
  | p :: ps =>
    match pg.patchValid gvkSource gvkTarget p with
    | .ok true =>
      match filterValidPatches pg gvkSource gvkTarget ps with
      | .error e => .error e
      | .ok kept => .ok (p :: kept)
    | .ok false => filterValidPatches pg gvkSource gvkTarget ps
    | .error e =>
      if pg.ErrorOnInvalidPatchSchema then .error e
      else filterValidPatches pg gvkSource gvkTarget ps

/-- `removeInvalidPatches` proper: replace the target template's patches by
the conforming ones. -/
def removeInvalidPatches (pg : PlanGenerator) (gvkSource gvkTarget : GroupVersionKind)
    (target : ComposedTemplate) : Except String ComposedTemplate :=
  match filterValidPatches pg gvkSource gvkTarget target.patches with
  | .error e => .error e
  | .ok kept => .ok { target with patches := kept }

/-- `setDefaultsOnTargetTemplate` (source lines 417-434): skip-listed source
identifiers are left alone; otherwise invalid patches are removed, and the
collision-avoidance naming rule runs: a template whose kind differs from
the source kind, or appearing after the source name has already been used,
receives the original name plus a random suffix (only when the original
name is present and non-empty); otherwise it keeps the original name and
marks it used.  The `Nat` is the position in the random-suffix stream. -/
def setDefaultsOnTargetTemplate (pg : PlanGenerator) (sourceName : Option String)
    (sourceNameUsed : Bool) (gvkSource gvkTarget : GroupVersionKind)
    (target : ComposedTemplate) (rnd : Nat) :
    Except String (ComposedTemplate × Bool × Nat) :=
  if isGVKSkipped pg gvkSource then .ok (target, sourceNameUsed, rnd)
  else
    match removeInvalidPatches pg gvkSource gvkTarget target with
    | .error e =>
      .error (wrapErr "failed to set the defaults on the migration target composed template" e)
    | .ok target =>
      if sourceNameUsed || gvkSource.kind != gvkTarget.kind then
        match sourceName with
        | some s =>
          if s.length > 0 then
            .ok ({ target with name := some (s ++ "-" ++ pg.randomSuffix rnd) },
                 sourceNameUsed, rnd + 1)
          else .ok (target, sourceNameUsed, rnd)
        | none => .ok (target, sourceNameUsed, rnd)
      else .ok (target, true, rnd)

/-- The inner fan-out loop of `convertComposition` (source lines 372-387):
for each replacement produced by the base conversion, deep-copy the source
template, re-embed the replacement as its base, and apply
`setDefaultsOnTargetTemplate`, threading `sourceNameUsed` and the random
stream. -/
def defaultTemplates (pg : PlanGenerator) (cmp : ComposedTemplate)
    (gvkSource : GroupVersionKind) :
    List UnstructuredWithMetadata → Bool → Nat →
    Except String (List ComposedTemplate × Bool × Nat)
  | [], used, rnd => .ok ([], used, rnd)
  | u :: us, used, rnd =>
    let c := { cmp with base := toRawExtension u.object }
    match setDefaultsOnTargetTemplate pg cmp.name used gvkSource u.object.gvk c rnd with
    | .error e => .error e
    | .ok (c, used, rnd) =>
      match defaultTemplates pg cmp gvkSource us used rnd with
      | .error e => .error e
      | .ok (cs, used, rnd) => .ok (c :: cs, used, rnd)

/-- The outer loop of `convertComposition` over `comp.Spec.Resources`
(source lines 358-395): convert each composed template's base resource in
composition context, fan the template out over the replacements, and run a
registered composed-template converter on the result. -/
def convertTemplates (pg : PlanGenerator) (meta : Metadata) :
    List ComposedTemplate → Bool → Nat →
    Except String (List ComposedTemplate × Bool × Nat)
  | [], isConverted, rnd => .ok ([], isConverted, rnd)
  | cmp :: rest, isConverted, rnd =>
    let u := fromRawExtension cmp.base
    let gvk := u.gvk
    match convertResource pg { object := u, metadata := meta } true with
    | (_, _, some e) => .error (wrapErr errComposedTemplateBase e)
    | (converted, ok, none) =>
      let isConverted := isConverted || ok
      match defaultTemplates pg cmp gvk (converted.getD []) false rnd with
      | .error e => .error (wrapErr errComposedTemplateMigrate e)
      | .ok (cmps, _, rnd) =>
        let next (cmps : List ComposedTemplate) :=
          match convertTemplates pg meta rest isConverted rnd with
          | .error e => .error e
          | .ok (tail, isConverted, rnd) => .ok (cmps ++ tail, isConverted, rnd)
        match pg.registry.templateConverters gvk with
        | some conv =>
          match conv cmp cmps with
          | .error e => .error (wrapErr errComposedTemplateMigrate e)
          | .ok cmps => next cmps
        | none => next cmps

/-- `convertToMap`: key the patch-set list by name.  Modelled from the
spec: its body is not part of the provided source. -/
def convertToMap (ps : List PatchSet) : List (String × PatchSet) :=
  ps.map fun p => (p.name, p)

/-- `convertFromMap`: rebuild the patch-set list from the converted map,
keeping the original order and dropping entries the converter deleted.
Modelled from the spec: its body is not part of the provided source. -/
def convertFromMap (m : List (String × PatchSet)) (old : List PatchSet) : List PatchSet :=
  old.filterMap fun p => (m.lookup p.name)

/-- `getConvertedPatchSetNames`: the names of the patch-sets that changed.
Modelled from the spec: its body is not part of the provided source. -/
def getConvertedPatchSetNames (newPS oldPS : List PatchSet) : List String :=
  newPS.filterMap fun p => if oldPS.contains p then none else some p.name

/-- The loop body of `convertPatchSets` (source lines 138-167), threading
the composition object (whose `spec.patchSets` the Go code updates in
place) and the accumulated converted patch-set names through the registered
patch-set converters. -/
def convertPatchSetsLoop (o : UnstructuredWithMetadata) (acc : List String) :
    List PatchSetConverterEntry →
    Except String (UnstructuredWithMetadata × List String)
  | [] => .ok (o, acc)
  | entry :: rest =>
    match entry.re, entry.converter with
    | some re, some conv =>
      if re o.object.name then
        let c := convertToComposition o.object
        let oldPatchSets := c.patchSets
        let psMap := convertToMap c.patchSets
        match conv psMap with
        | .error e =>
          .error (wrapErr ("failed to call PatchSet converter on Composition: " ++ c.name) e)
        | .ok psMap =>
          let newPatchSets := convertFromMap psMap oldPatchSets
          let acc := acc ++ getConvertedPatchSetNames newPatchSets oldPatchSets
          let o := { o with object := { o.object with patchSets := newPatchSets } }
          convertPatchSetsLoop o acc rest
      else convertPatchSetsLoop o acc rest
    | _, _ => convertPatchSetsLoop o acc rest

/-- `convertPatchSets` (source lines 138-167). -/
def convertPatchSets (pg : PlanGenerator) (o : UnstructuredWithMetadata) :
    Except String (UnstructuredWithMetadata × List String) :=
  convertPatchSetsLoop o [] pg.registry.patchSetConverters

/-- `convertComposition` (source lines 347-404): convert the patch-sets
first, then every composed template's base resource with fan-out and
defaulting, and re-assemble the composition.  Returns the converted
composition, the converted flag, and the advanced random-stream position. -/
def convertComposition (pg : PlanGenerator) (o : UnstructuredWithMetadata) (rnd : Nat) :
    Except String (UnstructuredWithMetadata × Bool × Nat) :=
  match convertPatchSets pg o with
  | .error e => .error (wrapErr "failed to convert patch sets" e)
  | .ok (o, _convertedPS) =>
    let comp := convertToComposition o.object
    match convertTemplates pg o.metadata comp.resources false rnd with
    | .error e => .error e
    | .ok (targetResources, isConverted, rnd) =>
      let comp := { comp with resources := targetResources }
      .ok ({ object := sanitizeComposition comp, metadata := o.metadata }, isConverted, rnd)

/-- The version dispatch of `convertConfiguration` (source lines 326-331):
the `v1alpha1` hook for a v1alpha1 object, the `v1` hook otherwise. -/
def versionHook (o : UnstructuredWithMetadata) (conv : ConfigurationConverter) :
    Configuration → Except String Configuration :=
  if o.object.gvk.version == "v1alpha1" then conv.configurationV1Alpha1
  else conv.configurationV1

/-- The loop of `convertConfiguration` (source lines 317-340): for each
registered configuration converter with a non-nil pattern and converter
matching the object's name, re-decode the configuration from the original
object and invoke the version-appropriate hook; the last hook's output is
kept and the converted flag records whether any entry matched. -/
def convertConfigurationLoop (o : UnstructuredWithMetadata)
    (conf : Option Configuration) (isConverted : Bool) :
    List ConfigurationConverterEntry → Except String (Option Configuration × Bool)
  | [] => .ok (conf, isConverted)
  | entry :: rest =>
    match entry.re, entry.converter with
    | some re, some conv =>
      if re o.object.name then
        let c := toConfiguration o.object
        match versionHook o conv c with
        | .error e =>
          .error (wrapErr ("failed to call converter on Configuration: " ++ c.name) e)
        | .ok c => convertConfigurationLoop o (some c) true rest
      else convertConfigurationLoop o conf isConverted rest
    | _, _ => convertConfigurationLoop o conf isConverted rest

/-- `convertConfiguration` (source lines 313-345). -/
def convertConfiguration (pg : PlanGenerator) (o : UnstructuredWithMetadata) :
    Except String (Option Configuration × Bool) :=
  convertConfigurationLoop o none false pg.registry.configurationConverters

/-- `getVersionedName`.  Modelled from the spec: the new version tag plus
the original name. -/
def getVersionedName (u : Unstructured) : String :=
  apiVersionOf u.gvk ++ "/" ++ u.name

/-- Sequencing of two stateful stages: Go's `if err != nil { return err }`
followed by the continuation on the updated state. -/
def andThen (r : ConvState × Option String)
    (k : ConvState → ConvState × Option String) : ConvState × Option String :=
  match r with
  | (st, some e) => (st, some e)
  | (st, none) => k st

/-- Go's `errors.Wrap` applied to a stage result:
`if err != nil { return st, errors.Wrap(err, msg) }`. -/
def mapErr (r : ConvState × Option String) (f : String → String) :
    ConvState × Option String :=
  (r.1, r.2.map f)

/-- The shared shape of the `step*` helpers of the source (their bodies are
not in the provided source; modelled from the spec): write the manifest to
the sink and record the step in the plan's deduplicated accumulator. -/
def emitStep (pg : PlanGenerator) (st : ConvState) (s : Step) : ConvState × Option String :=
  match pg.targetSink s with
  | some e => (st, some e)
  | none => ({ st with plan := addStep st.plan s }, none)

/-- The per-replacement step emission of the main pass (source lines
233-241): a `NewManagedResource` then a `StartManagedResource` step per
produced replacement, each failure wrapped with `errResourceMigrate`. -/
def emitMRSteps (pg : PlanGenerator) (st : ConvState) :
    List UnstructuredWithMetadata → ConvState × Option String
  | [] => (st, none)
  | t :: ts =>
    andThen (mapErr (emitStep pg st (.newManagedResource t)) (wrapErr errResourceMigrate))
      fun st =>
        andThen (mapErr (emitStep pg st (.startManagedResource t))
            (wrapErr errResourceMigrate))
          fun st => emitMRSteps pg st ts

/-- The body of the configuration case of `convert` (source lines 186-195). -/
def processConfiguration (pg : PlanGenerator) (st : ConvState)
    (o : UnstructuredWithMetadata) : ConvState × Option String :=
  match convertConfiguration pg o with
  | .error e => (st, some (wrapErr (errConfigurationMigrate o.object.name) e))
  | .ok (conf, converted) =>
    if converted then
      match conf with
      | some c =>
        let target : UnstructuredWithMetadata :=
          { object := sanitizeConfiguration o.object.gvk c, metadata := o.metadata }
        emitStep pg st (.editConfiguration o.object target (getVersionedName target.object))
      | none => (st, none)
    else (st, none)

/-- The body of the composition case of `convert` (source lines 196-208):
delegate to `convertComposition`; if converted, record the old-to-new name
mapping, rename the result with the fixed `-migrated` suffix, and emit a
`NewComposition` step. -/
def processComposition (pg : PlanGenerator) (st : ConvState)
    (o : UnstructuredWithMetadata) : ConvState × Option String :=
  match convertComposition pg o st.rnd with
  | .error e => (st, some (wrapErr (errCompositionMigrate o.object.name) e))
  | .ok (target, converted, rnd) =>
    let st := { st with rnd := rnd }
    if converted then
      let migratedName := o.object.name ++ "-migrated"
      let st := { st with
        convertedComposition := st.convertedComposition ++ [(o.object.name, migratedName)] }
      let target := { target with object := { target.object with name := migratedName } }
      mapErr (emitStep pg st (.newComposition target))
        (wrapErr (errCompositionMigrate o.object.name))
    else (st, none)

/-- The default case of `convert` for plain resources (source lines
223-246). -/
def processResource (pg : PlanGenerator) (st : ConvState)
    (o : UnstructuredWithMetadata) : ConvState × Option String :=
  let gvk := o.object.gvk
  match convertResource pg o false with
  | (_, _, some e) => (st, some (wrapErr errResourceMigrate e))
  | (targets, converted, none) =>
    if converted then
      let targets := targets.getD []
      let st := { st with convertedMR := st.convertedMR ++
        [({ kind := gvk.kind, name := o.object.name, apiVersion := apiVersionOf gvk },
          targets)] }
      emitMRSteps pg st targets
    else if isManagedResource pg o.object then
      mapErr (emitStep pg st (.startManagedResource o)) (wrapErr errResourceMigrate)
    else (st, none)

/-- The trailing `addStepsForManagedResource` collaborator call run after
the `switch` of the main loop (source lines 248-250); its body is not in
the provided source and is modelled as an oracle returning extra steps. -/
def runAddSteps (pg : PlanGenerator) (o : UnstructuredWithMetadata)
    (r : ConvState × Option String) : ConvState × Option String :=
  andThen r fun st =>
    match pg.addStepsForMR o with
    | .error e => (st, some e)
    | .ok steps => ({ st with plan := steps.foldl addStep st.plan }, none)

/-- One iteration of the main loop of `convert` (source lines 185-250):
dispatch the object by type identifier and category, then run the external
`addStepsForManagedResource` collaborator — except for composites and
claims, whose branches `continue` before reaching it. -/
def processObject (pg : PlanGenerator) (st : ConvState)
    (o : UnstructuredWithMetadata) : ConvState × Option String :=
  let gvk := o.object.gvk
  if gvk = ConfigurationGroupVersionKindV1 ∨ gvk = ConfigurationGroupVersionKindV1Alpha1 then
    runAddSteps pg o (processConfiguration pg st o)
  else if gvk = CompositionGroupVersionKind then
    runAddSteps pg o (processComposition pg st o)
  else if o.metadata.category = Category.composite then
    andThen (mapErr (emitStep pg st (.pauseComposite o)) (wrapErr errCompositePause))
      fun st => ({ st with composites := st.composites ++ [o] }, none)
  else if o.metadata.category = Category.claim then
    ({ st with claims := st.claims ++ [o] }, none)
  else
    runAddSteps pg o (processResource pg st o)

/-- The source iterator, drained one item at a time; an erroring item
models a failing `Next` call. -/
abbrev SourceStream := List (Except String UnstructuredWithMetadata)

/-- The main loop of `convert` (source lines 174-251). -/
def convertLoop (pg : PlanGenerator) : SourceStream → ConvState → ConvState × Option String
  | [], st => (st, none)
  | .error e :: _, st => (st, some (wrapErr errSourceNext e))
  | .ok o :: rest, st =>
    andThen (processObject pg st o) fun st => convertLoop pg rest st

/-- One of the three deferred batch passes (source lines 252-260): run the
collaborator, wrap its failure with the stage-specific message, or append
the steps it produced. -/
def runBatch (st : ConvState) (r : Except String (List Step)) (wrapMsg : String) :
    ConvState × Option String :=
  match r with
  | .error e => (st, some (wrapErr wrapMsg e))
  | .ok steps => ({ st with plan := steps.foldl addStep st.plan }, none)

/-- `convert` (source lines 169-262): drain the source, then run the three
ordered batch passes over the accumulated composites and claims. -/
def convert (pg : PlanGenerator) (src : SourceStream) (st : ConvState) :
    ConvState × Option String :=
  andThen (convertLoop pg src st) fun st =>
    andThen (runBatch st
        (pg.stepEditComposites st.composites st.convertedMR st.convertedComposition)
        errCompositesEdit) fun st =>
      andThen (runBatch st (pg.stepStartComposites st.composites) errCompositesStart)
        fun st =>
          runBatch st (pg.stepEditClaims st.claims st.convertedComposition) errClaimsEdit

/-- The generator state at the top of `GeneratePlan`: fresh step map,
plan version `0.1.0`, empty accumulators, random stream at position 0. -/
def initState : ConvState :=
  { plan := { version := versionV010, stepMap := [], steps := [], commitCount := 0 },
    convertedMR := [], convertedComposition := [], composites := [], claims := [],
    rnd := 0 }

/-- `GeneratePlan` (source lines 131-136): initialize the plan, run
`convert`, and — via the deferred call, on success and on error alike —
commit the accumulated steps exactly once; the error, if any, is wrapped
with `errPlanGeneration`. -/
def GeneratePlan (pg : PlanGenerator) (src : SourceStream) : Plan × Option String :=
  match convert pg src initState with
  | (st, e) => (commitSteps st.plan, e.map (wrapErr errPlanGeneration))

/-! Concrete fixtures used by witnesses and counterexamples. -/

/-- A scheme oracle that decodes every object verbatim and reports it as a
managed resource. -/
def trivialScheme : Scheme := fun u => .ok (toRawExtension u, true)

/-- An empty converter registry over the trivial scheme. -/
def emptyRegistry : Registry :=
  { resourceConverters := fun _ => none, templateConverters := fun _ => none,
    patchSetConverters := [], configurationConverters := [], scheme := trivialScheme }

/-- A plan generator with no converters, an always-succeeding sink, a
constant random-suffix stream, and vacuous collaborators. -/
def pgBase : PlanGenerator :=
  { registry := emptyRegistry,
    ErrorOnInvalidPatchSchema := false,
    SkipGVKs := [],
    targetSink := fun _ => none,
    randomSuffix := fun _ => "abcde",
    patchValid := fun _ _ _ => .ok true,
    addStepsForMR := fun _ => .ok [],
    stepEditComposites := fun _ _ _ => .ok [],
    stepStartComposites := fun _ => .ok [],
    stepEditClaims := fun _ _ => .ok [] }

/-- A sample managed-resource type identifier. -/
def gvkA : GroupVersionKind := ⟨"ec2.aws.upbound.io", "v1beta1", "VPC"⟩

/-- A second sample kind in the same group/version. -/
def gvkB : GroupVersionKind := ⟨"ec2.aws.upbound.io", "v1beta1", "RouteTable"⟩

/-- A sample managed-resource envelope of type `gvkA`. -/
def oMR : UnstructuredWithMetadata :=
  { object := { gvk := gvkA, name := "my-vpc", generateName := "",
                patchSets := [], resources := [], payload := 7 },
    metadata := { category := Category.other } }

/-! ### C8 — absence of a registered resource converter -/

/-- C8: for every envelope whose type identifier has no registered resource
converter, `convertResource` returns the single original envelope unchanged
with `converted = false` and no error — no replacement objects are produced
and no name or generate-name prefix is assigned. -/
theorem c8_no_converter_passthrough (pg : PlanGenerator) (o : UnstructuredWithMetadata)
    (ctx : Bool) (h : pg.registry.resourceConverters o.object.gvk = none) :
    convertResource pg o ctx = (some [o], false, none) := by
  simp [convertResource, h]

/-- Witness for C8 at a concrete envelope and the empty registry. -/
theorem c8_witness :
    convertResource pgBase oMR false = (some [oMR], false, none) :=
  c8_no_converter_passthrough pgBase oMR false (by rfl)

/-! ### C9 — converted flag on the error paths of `convertResource` -/

/-- C9: when `convertResource` fails the GVK assertion on the converter's
output it returns a nil result list, `converted = true` and the error;
the two other error paths (scheme decode failure, converter failure)
return `converted = false` with the error. -/
theorem c9_error_paths_converted_flag (pg : PlanGenerator)
    (o : UnstructuredWithMetadata) (ctx : Bool) :
    (∀ c e, pg.registry.resourceConverters o.object.gvk = some c →
      pg.registry.scheme o.object = .error e →
      convertResource pg o ctx = (none, false, some (wrapErr errResourceMigrate e)))
    ∧ (∀ c mg b e, pg.registry.resourceConverters o.object.gvk = some c →
      pg.registry.scheme o.object = .ok (mg, b) → c mg = .error e →
      convertResource pg o ctx = (none, false, some (wrapErr errResourceMigrate e)))
    ∧ (∀ c mg b rs, pg.registry.resourceConverters o.object.gvk = some c →
      pg.registry.scheme o.object = .ok (mg, b) → c mg = .ok rs →
      rs.any (fun r => r.gvk.isZero) = true →
      convertResource pg o ctx =
        (none, true, some (wrapErr errResourceMigrate errMissingGVK))) := by
  refine ⟨fun c e hc hs => ?_, fun c mg b e hc hs hcv => ?_, fun c mg b rs hc hs hcv hz => ?_⟩
  · simp [convertResource, hc, hs]
  · simp [convertResource, hc, hs, hcv]
  · simp [convertResource, hc, hs, hcv, assertGVK, hz]

/-- A registry whose only resource converter (for `gvkA`) forgets to stamp
the GVK on its output. -/
def pgNoGVK : PlanGenerator :=
  { pgBase with registry := { emptyRegistry with
      resourceConverters := fun g =>
        if g = gvkA then
          some (fun mg => .ok [{ mg with gvk := ⟨"", "", ""⟩ }])
        else none } }

/-- A registry whose only resource converter (for `gvkA`) fails outright. -/
def pgConvErr : PlanGenerator :=
  { pgBase with registry := { emptyRegistry with
      resourceConverters := fun g =>
        if g = gvkA then some (fun _ => .error "boom") else none } }

/-- A registry with a converter for `gvkA` over a scheme that cannot decode. -/
def pgSchemeErr : PlanGenerator :=
  { pgBase with registry := { emptyRegistry with
      resourceConverters := fun g =>
        if g = gvkA then some (fun mg => .ok [mg]) else none,
      scheme := fun _ => .error "no kind registered" } }

/-- Witness for C9: each of the three error paths hit at a concrete input. -/
theorem c9_witness :
    convertResource pgSchemeErr oMR false =
      (none, false, some (wrapErr errResourceMigrate "no kind registered"))
    ∧ convertResource pgConvErr oMR false =
      (none, false, some (wrapErr errResourceMigrate "boom"))
    ∧ convertResource pgNoGVK oMR false =
      (none, true, some (wrapErr errResourceMigrate errMissingGVK)) :=
  ⟨(c9_error_paths_converted_flag pgSchemeErr oMR false).1 _ _ (by rfl) (by rfl),
   (c9_error_paths_converted_flag pgConvErr oMR false).2.1 _ _ _ _ (by rfl) (by rfl) (by rfl),
   (c9_error_paths_converted_flag pgNoGVK oMR false).2.2 _ _ _ _ (by rfl) (by rfl) (by rfl)
     (by decide)⟩

/-! ### C6 — skip-list wildcard matching and skipped-template no-op -/

lemma stringLengthEqZero (s : String) : s.length = 0 ↔ s = "" := by
  constructor
  · intro h
    cases s with
    | mk data =>
      cases data with
      | nil => rfl
      | cons a as => simp [String.length] at h
  · intro h; subst h; rfl

/-- C6: a skip-list entry matches the source type identifier exactly when
each of its non-empty components equals the corresponding component (an
all-empty entry hence matches every identifier), and
`setDefaultsOnTargetTemplate` is a no-op for a skipped source identifier. -/
theorem c6_skip_list_wildcard (pg : PlanGenerator) (s : GroupVersionKind)
    (sourceName : Option String) (used : Bool) (gvkT : GroupVersionKind)
    (target : ComposedTemplate) (rnd : Nat) :
    (isGVKSkipped pg s = true ↔ ∃ g ∈ pg.SkipGVKs,
      (g.group = "" ∨ g.group = s.group) ∧ (g.version = "" ∨ g.version = s.version) ∧
      (g.kind = "" ∨ g.kind = s.kind))
    ∧ (GroupVersionKind.mk "" "" "" ∈ pg.SkipGVKs → isGVKSkipped pg s = true)
    ∧ (isGVKSkipped pg s = true →
        setDefaultsOnTargetTemplate pg sourceName used s gvkT target rnd =
          .ok (target, used, rnd)) := by
  have hmatch : isGVKSkipped pg s = true ↔ ∃ g ∈ pg.SkipGVKs,
      (g.group = "" ∨ g.group = s.group) ∧ (g.version = "" ∨ g.version = s.version) ∧
      (g.kind = "" ∨ g.kind = s.kind) := by
    simp [isGVKSkipped, List.any_eq_true, Bool.and_eq_true, Bool.or_eq_true,
      beq_iff_eq, stringLengthEqZero, and_assoc]
  refine ⟨hmatch, fun hmem => ?_, fun hskip => ?_⟩
  · exact hmatch.mpr ⟨⟨"", "", ""⟩, hmem, Or.inl rfl, Or.inl rfl, Or.inl rfl⟩
  · simp [setDefaultsOnTargetTemplate, hskip]

/-- A plan generator whose skip list holds the all-wildcard entry. -/
def pgSkipAll : PlanGenerator :=
  { pgBase with SkipGVKs := [⟨"", "", ""⟩] }

/-- A composed template fixture. -/
def cmpFix : ComposedTemplate :=
  { name := some "tmpl", base := { gvk := gvkA, name := "base", generateName := "", payload := 3 },
    patches := [0, 1] }

/-- Witness for C6: with the all-wildcard skip entry, `gvkA` is skipped and
defaulting a template whose target kind even differs from the source kind
is a no-op. -/
theorem c6_witness :
    isGVKSkipped pgSkipAll gvkA = true
    ∧ setDefaultsOnTargetTemplate pgSkipAll (some "tmpl") false gvkA gvkB cmpFix 0 =
        .ok (cmpFix, false, 0) :=
  ⟨(c6_skip_list_wildcard pgSkipAll gvkA (some "tmpl") false gvkB cmpFix 0).1.mpr
      ⟨⟨"", "", ""⟩, by decide, Or.inl rfl, Or.inl rfl, Or.inl rfl⟩,
   (c6_skip_list_wildcard pgSkipAll gvkA (some "tmpl") false gvkB cmpFix 0).2.2 (by decide)⟩

instance {ε α : Type} [DecidableEq ε] [DecidableEq α] : DecidableEq (Except ε α) :=
  fun x y =>
    match x, y with
    | .ok a, .ok b =>
      if h : a = b then isTrue (by rw [h]) else
        isFalse (by intro hh; injection hh; contradiction)
    | .error a, .error b =>
      if h : a = b then isTrue (by rw [h]) else
        isFalse (by intro hh; injection hh; contradiction)
    | .ok _, .error _ => isFalse (fun hh => Except.noConfusion hh)
    | .error _, .ok _ => isFalse (fun hh => Except.noConfusion hh)

/-! ### C10 — collision avoidance is skipped for unnamed templates -/

lemma removeInvalidPatches_name (pg : PlanGenerator) (gS gT : GroupVersionKind)
    (target x : ComposedTemplate)
    (h : removeInvalidPatches pg gS gT target = .ok x) : x.name = target.name := by
  unfold removeInvalidPatches at h
  split at h
  · exact absurd h (by simp)
  · injection h with h
    subst h
    rfl

lemma setDefaults_name_unnamed (pg : PlanGenerator) (sn : Option String) (used : Bool)
    (gS gT : GroupVersionKind) (target : ComposedTemplate) (rnd : Nat)
    (t' : ComposedTemplate) (used' : Bool) (rnd' : Nat)
    (hn : sn = none ∨ sn = some "")
    (h : setDefaultsOnTargetTemplate pg sn used gS gT target rnd = .ok (t', used', rnd')) :
    t'.name = target.name := by
  unfold setDefaultsOnTargetTemplate at h
  split at h
  · injection h with h
    exact (congrArg (fun p => p.1.name) h).symm
  · split at h
    · exact absurd h (by simp)
    · rename_i target₁ hrip
      have hname := removeInvalidPatches_name pg gS gT target target₁ hrip
      split at h
      · rcases hn with hn | hn <;> subst hn
        · injection h with h
          exact ((congrArg (fun p => p.1.name) h).symm).trans hname
        · dsimp only at h
          rw [if_neg (by decide : ¬(("" : String).length > 0))] at h
          injection h with h
          exact ((congrArg (fun p => p.1.name) h).symm).trans hname
      · injection h with h
        exact ((congrArg (fun p => p.1.name) h).symm).trans hname

/-- C10: if a composed template's original name is nil or empty, the
fan-out defaulting loop never assigns a generated name to any produced
template — every produced template keeps the original (absent or empty)
name, whatever its position or resulting kind. -/
theorem c10_unnamed_templates_not_renamed (pg : PlanGenerator) (cmp : ComposedTemplate)
    (gvkSource : GroupVersionKind) (us : List UnstructuredWithMetadata) (used : Bool)
    (rnd : Nat) (cs : List ComposedTemplate) (used' : Bool) (rnd' : Nat)
    (hn : cmp.name = none ∨ cmp.name = some "")
    (h : defaultTemplates pg cmp gvkSource us used rnd = .ok (cs, used', rnd')) :
    cs.all (fun c => decide (c.name = cmp.name)) = true := by
  induction us generalizing used rnd cs used' rnd' with
  | nil =>
    unfold defaultTemplates at h
    injection h with h
    injection h with h1 h2
    rw [← h1]
    rfl
  | cons u us ih =>
    cases hsd : setDefaultsOnTargetTemplate pg cmp.name used gvkSource u.object.gvk
        { cmp with base := toRawExtension u.object } rnd with
    | error e =>
      simp only [defaultTemplates, hsd] at h
      exact Except.noConfusion h
    | ok res =>
      obtain ⟨c₁, used₁, rnd₁⟩ := res
      cases hrec : defaultTemplates pg cmp gvkSource us used₁ rnd₁ with
      | error e =>
        simp only [defaultTemplates, hsd, hrec] at h
        exact Except.noConfusion h
      | ok res₂ =>
        obtain ⟨cs₂, used₂, rnd₂⟩ := res₂
        simp only [defaultTemplates, hsd, hrec, Except.ok.injEq, Prod.mk.injEq] at h
        obtain ⟨hcs, -, -⟩ := h
        have hc₁ : c₁.name = cmp.name :=
          setDefaults_name_unnamed pg cmp.name used gvkSource u.object.gvk
            { cmp with base := toRawExtension u.object } rnd c₁ used₁ rnd₁ hn hsd
        have htail := ih used₁ rnd₁ cs₂ used₂ rnd₂ hrec
        rw [← hcs]
        simp [List.all_cons, hc₁, htail]

/-- An unnamed composed template. -/
def cmpUnnamed : ComposedTemplate :=
  { name := none, base := { gvk := gvkA, name := "base", generateName := "", payload := 0 },
    patches := [] }

/-- A fan-out whose first replacement changes kind — the situation that
would trigger renaming for a named template. -/
def usFanOut : List UnstructuredWithMetadata :=
  [{ object := { gvk := gvkB, name := "r1", generateName := "", patchSets := [],
                 resources := [], payload := 1 },
     metadata := { category := Category.other } },
   { object := { gvk := gvkA, name := "r2", generateName := "", patchSets := [],
                 resources := [], payload := 2 },
     metadata := { category := Category.other } }]

/-- Witness for C10 at a concrete two-template fan-out with a kind change. -/
theorem c10_witness :
    ([{ name := none,
        base := { gvk := gvkB, name := "r1", generateName := "", payload := 1 },
        patches := [] },
      { name := none,
        base := { gvk := gvkA, name := "r2", generateName := "", payload := 2 },
        patches := [] }] : List ComposedTemplate).all
      (fun c => decide (c.name = cmpUnnamed.name)) = true :=
  c10_unnamed_templates_not_renamed pgBase cmpUnnamed gvkA usFanOut false 0 _ true 0
    (Or.inl rfl) (by rfl)

/-! ### C5 — the plan is committed exactly once, on every exit path -/

lemma addStep_commitCount (p : Plan) (s : Step) :
    (addStep p s).commitCount = p.commitCount := by
  unfold addStep; split <;> rfl

lemma addStep_steps (p : Plan) (s : Step) : (addStep p s).steps = p.steps := by
  unfold addStep; split <;> rfl

lemma foldl_addStep_commitCount (l : List Step) (p : Plan) :
    (l.foldl addStep p).commitCount = p.commitCount := by
  induction l generalizing p with
  | nil => rfl
  | cons s l ih => rw [List.foldl_cons, ih, addStep_commitCount]

/-- A state transformation that leaves the commit counter alone. -/
def PreservesCommit (f : ConvState → ConvState × Option String) : Prop :=
  ∀ st, (f st).1.plan.commitCount = st.plan.commitCount

lemma mapErr_fst (r : ConvState × Option String) (f : String → String) :
    (mapErr r f).1 = r.1 := rfl

lemma andThen_commitCount (r : ConvState × Option String)
    (k : ConvState → ConvState × Option String)
    (h1 : r.1.plan.commitCount = n)
    (h2 : (k r.1).1.plan.commitCount = r.1.plan.commitCount) :
    (andThen r k).1.plan.commitCount = n := by
  rcases r with ⟨st, e⟩
  cases e with
  | none => exact h2.trans h1
  | some e => exact h1

lemma emitStep_commitCount (pg : PlanGenerator) (st : ConvState) (s : Step) :
    (emitStep pg st s).1.plan.commitCount = st.plan.commitCount := by
  unfold emitStep; split <;> simp [addStep_commitCount]

lemma emitMRSteps_commitCount (pg : PlanGenerator) (st : ConvState)
    (ts : List UnstructuredWithMetadata) :
    (emitMRSteps pg st ts).1.plan.commitCount = st.plan.commitCount := by
  induction ts generalizing st with
  | nil => rfl
  | cons t ts ih =>
    unfold emitMRSteps
    refine andThen_commitCount _ _ ?_ ?_
    · rw [mapErr_fst]; exact emitStep_commitCount pg st _
    · refine andThen_commitCount _ _ ?_ ?_
      · rw [mapErr_fst, mapErr_fst]; exact emitStep_commitCount pg _ _
      · exact ih _

lemma processConfiguration_commitCount (pg : PlanGenerator) (st : ConvState)
    (o : UnstructuredWithMetadata) :
    (processConfiguration pg st o).1.plan.commitCount = st.plan.commitCount := by
  unfold processConfiguration
  split
  · rfl
  · split
    · split
      · exact emitStep_commitCount pg st _
      · rfl
    · rfl

lemma processComposition_commitCount (pg : PlanGenerator) (st : ConvState)
    (o : UnstructuredWithMetadata) :
    (processComposition pg st o).1.plan.commitCount = st.plan.commitCount := by
  unfold processComposition
  split
  · rfl
  · split
    · rw [mapErr_fst]; exact emitStep_commitCount pg _ _
    · rfl

lemma processResource_commitCount (pg : PlanGenerator) (st : ConvState)
    (o : UnstructuredWithMetadata) :
    (processResource pg st o).1.plan.commitCount = st.plan.commitCount := by
  unfold processResource
  split
  · rfl
  · split
    · exact emitMRSteps_commitCount pg _ _
    · split
      · rw [mapErr_fst]; exact emitStep_commitCount pg _ _
      · rfl

lemma runAddSteps_commitCount (pg : PlanGenerator) (o : UnstructuredWithMetadata)
    (r : ConvState × Option String)
    (h : r.1.plan.commitCount = n) :
    (runAddSteps pg o r).1.plan.commitCount = n := by
  unfold runAddSteps
  refine andThen_commitCount _ _ h ?_
  split
  · rfl
  · simp [foldl_addStep_commitCount]

lemma processObject_commitCount (pg : PlanGenerator) (st : ConvState)
    (o : UnstructuredWithMetadata) :
    (processObject pg st o).1.plan.commitCount = st.plan.commitCount := by
  simp only [processObject]
  split
  · exact runAddSteps_commitCount pg o _ (processConfiguration_commitCount pg st o)
  · split
    · exact runAddSteps_commitCount pg o _ (processComposition_commitCount pg st o)
    · split
      · refine andThen_commitCount _ _ ?_ ?_
        · rw [mapErr_fst]; exact emitStep_commitCount pg _ _
        · rfl
      · split
        · rfl
        · exact runAddSteps_commitCount pg o _ (processResource_commitCount pg st o)

lemma convertLoop_commitCount (pg : PlanGenerator) (src : SourceStream) (st : ConvState) :
    (convertLoop pg src st).1.plan.commitCount = st.plan.commitCount := by
  induction src generalizing st with
  | nil => rfl
  | cons item rest ih =>
    cases item with
    | error e => rfl
    | ok o =>
      unfold convertLoop
      exact andThen_commitCount _ _ (processObject_commitCount pg st o) (ih _)

lemma runBatch_commitCount (st : ConvState) (r : Except String (List Step))
    (msg : String) :
    (runBatch st r msg).1.plan.commitCount = st.plan.commitCount := by
  unfold runBatch
  split
  · rfl
  · simp [foldl_addStep_commitCount]

lemma convert_commitCount (pg : PlanGenerator) (src : SourceStream) (st : ConvState) :
    (convert pg src st).1.plan.commitCount = st.plan.commitCount := by
  unfold convert
  refine andThen_commitCount _ _ (convertLoop_commitCount pg src st) ?_
  refine andThen_commitCount _ _ (runBatch_commitCount _ _ _) ?_
  refine andThen_commitCount _ _ (runBatch_commitCount _ _ _) ?_
  exact runBatch_commitCount _ _ _

/-- C5: `GeneratePlan` commits the accumulated plan steps exactly once, on
every exit path — whether `convert` succeeded or returned an error from any
stage, the returned plan has been flushed (its committed step list equals
the accumulated step map) and the commit ran exactly once (nothing inside
generation commits, and the deferred commit runs unconditionally). -/
theorem c5_commit_exactly_once (pg : PlanGenerator) (src : SourceStream) :
    (GeneratePlan pg src).1.commitCount = 1
    ∧ (GeneratePlan pg src).1.steps = (GeneratePlan pg src).1.stepMap := by
  have h := convert_commitCount pg src initState
  rcases hc : convert pg src initState with ⟨st, e⟩
  rw [hc] at h
  simp only [GeneratePlan, hc]
  exact ⟨by rw [commitSteps, h]; rfl, rfl⟩

/-! ### C1 — the composition converted flag and patch-set conversion -/

lemma convertResource_flag (pg : PlanGenerator) (o : UnstructuredWithMetadata)
    (ctx : Bool) (res : Option (List UnstructuredWithMetadata)) (ok : Bool)
    (h : convertResource pg o ctx = (res, ok, none)) :
    ok = (pg.registry.resourceConverters o.object.gvk).isSome := by
  cases hl : pg.registry.resourceConverters o.object.gvk with
  | none =>
    simp only [convertResource, hl, Prod.mk.injEq] at h
    simp [← h.2.1]
  | some conv =>
    cases hs : pg.registry.scheme o.object with
    | error e => simp only [convertResource, hl, hs, Prod.mk.injEq] at h; exact absurd h.2.2 (by simp)
    | ok p =>
      obtain ⟨mg, b⟩ := p
      cases hcv : conv mg with
      | error e =>
        simp only [convertResource, hl, hs, hcv, Prod.mk.injEq] at h
        exact absurd h.2.2 (by simp)
      | ok rs =>
        cases hz : assertGVK rs with
        | some e =>
          simp only [convertResource, hl, hs, hcv, hz, Prod.mk.injEq] at h
          exact absurd h.2.2 (by simp)
        | none =>
          simp only [convertResource, hl, hs, hcv, hz, Prod.mk.injEq] at h
          simp [← h.2.1]

lemma convertPatchSetsLoop_object (o : UnstructuredWithMetadata) (acc : List String)
    (entries : List PatchSetConverterEntry) (o' : UnstructuredWithMetadata)
    (acc' : List String)
    (h : convertPatchSetsLoop o acc entries = .ok (o', acc')) :
    o'.object.resources = o.object.resources ∧ o'.object.name = o.object.name
    ∧ o'.metadata = o.metadata := by
  induction entries generalizing o acc with
  | nil =>
    unfold convertPatchSetsLoop at h
    injection h with h
    injection h with h1 h2
    rw [← h1]
    exact ⟨rfl, rfl, rfl⟩
  | cons entry rest ih =>
    unfold convertPatchSetsLoop at h
    rcases entry with ⟨re, conv⟩
    cases re with
    | none => exact ih o acc h
    | some re =>
      cases conv with
      | none => exact ih o acc h
      | some conv =>
        dsimp only at h
        by_cases hm : re o.object.name = true
        · rw [if_pos hm] at h
          cases hcv : conv (convertToMap (convertToComposition o.object).patchSets) with
          | error e => rw [hcv] at h; exact absurd h (by simp)
          | ok psMap =>
            rw [hcv] at h
            have := ih _ _ h
            exact this
        · rw [if_neg hm] at h
          exact ih o acc h

lemma convertTemplates_flag (pg : PlanGenerator) (meta : Metadata)
    (l : List ComposedTemplate) (isConv : Bool) (rnd : Nat)
    (out : List ComposedTemplate) (flag : Bool) (rnd' : Nat)
    (h : convertTemplates pg meta l isConv rnd = .ok (out, flag, rnd')) :
    flag = (isConv || l.any fun cmp =>
      (pg.registry.resourceConverters cmp.base.gvk).isSome) := by
  induction l generalizing isConv rnd out flag rnd' with
  | nil =>
    unfold convertTemplates at h
    injection h with h
    injection h with h1 h2
    injection h2 with h2 h3
    simp [← h2]
  | cons cmp rest ih =>
    rcases hcr : convertResource pg
        { object := fromRawExtension cmp.base, metadata := meta } true with ⟨res, ok, err⟩
    have hok : err = none → ok = (pg.registry.resourceConverters cmp.base.gvk).isSome := by
      intro he
      rw [he] at hcr
      exact convertResource_flag pg _ true res ok hcr
    cases err with
    | some e =>
      simp only [convertTemplates, hcr] at h
      exact Except.noConfusion h
    | none =>
      have hok' := hok rfl
      cases hdt : defaultTemplates pg cmp (fromRawExtension cmp.base).gvk
          (res.getD []) false rnd with
      | error e =>
        simp only [convertTemplates, hcr, hdt] at h
        exact Except.noConfusion h
      | ok dres =>
        obtain ⟨cmps, used₂, rnd₂⟩ := dres
        cases htc : pg.registry.templateConverters (fromRawExtension cmp.base).gvk with
        | none =>
          cases hrec : convertTemplates pg meta rest (isConv || ok) rnd₂ with
          | error e =>
            simp only [convertTemplates, hcr, hdt, htc, hrec] at h
            exact Except.noConfusion h
          | ok rres =>
            obtain ⟨tail, flag₂, rnd₃⟩ := rres
            simp only [convertTemplates, hcr, hdt, htc, hrec, Except.ok.injEq,
              Prod.mk.injEq] at h
            obtain ⟨-, hflag, -⟩ := h
            rw [← hflag, ih _ _ _ _ _ hrec, hok']
            simp [Bool.or_assoc]
        | some conv =>
          cases hcc : conv cmp cmps with
          | error e =>
            simp only [convertTemplates, hcr, hdt, htc, hcc] at h
            exact Except.noConfusion h
          | ok cmps₂ =>
            cases hrec : convertTemplates pg meta rest (isConv || ok) rnd₂ with
            | error e =>
              simp only [convertTemplates, hcr, hdt, htc, hcc, hrec] at h
              exact Except.noConfusion h
            | ok rres =>
              obtain ⟨tail, flag₂, rnd₃⟩ := rres
              simp only [convertTemplates, hcr, hdt, htc, hcc, hrec, Except.ok.injEq,
                Prod.mk.injEq] at h
              obtain ⟨-, hflag, -⟩ := h
              rw [← hflag, ih _ _ _ _ _ hrec, hok']
              simp [Bool.or_assoc]

/-- C1 (amended): the converted flag returned by `convertComposition` is
true exactly when some composed template's base resource conversion
reported converted (i.e. a resource converter is registered for its type
identifier); changes made by patch-set converters do not contribute to the
flag. -/
theorem c1_converted_flag_ignores_patchsets (pg : PlanGenerator)
    (o : UnstructuredWithMetadata) (rnd : Nat) (t : UnstructuredWithMetadata)
    (flag : Bool) (rnd' : Nat)
    (h : convertComposition pg o rnd = .ok (t, flag, rnd')) :
    flag = o.object.resources.any fun cmp =>
      (pg.registry.resourceConverters cmp.base.gvk).isSome := by
  cases hps : convertPatchSets pg o with
  | error e =>
    simp only [convertComposition, hps] at h
    exact Except.noConfusion h
  | ok pres =>
    obtain ⟨o₁, ps⟩ := pres
    have hobj := convertPatchSetsLoop_object o [] pg.registry.patchSetConverters o₁ ps hps
    cases hct : convertTemplates pg o₁.metadata (convertToComposition o₁.object).resources
        false rnd with
    | error e =>
      simp only [convertComposition, hps, hct] at h
      exact Except.noConfusion h
    | ok cres =>
      obtain ⟨targetResources, isConverted, rnd₂⟩ := cres
      simp only [convertComposition, hps, hct, Except.ok.injEq, Prod.mk.injEq] at h
      obtain ⟨-, hflag, -⟩ := h
      have := convertTemplates_flag pg o₁.metadata _ false rnd _ _ _ hct
      rw [← hflag, this]
      simp only [Bool.false_or]
      show ((convertToComposition o₁.object).resources.any _) = _
      rw [show (convertToComposition o₁.object).resources = o₁.object.resources from rfl,
        hobj.1]

/-- A patch-set converter that rewrites every patch-set's patches. -/
def psConvC1 : PatchSetConverterFn :=
  fun m => .ok (m.map fun p => (p.1, { p.2 with patches := [99] }))

/-- A generator whose only converter is a patch-set converter matching every
composition name. -/
def pgC1 : PlanGenerator :=
  { pgBase with registry := { emptyRegistry with
      patchSetConverters := [{ re := some (fun _ => true), converter := some psConvC1 }] } }

/-- A composition with one patch-set and no composed templates. -/
def oC1 : UnstructuredWithMetadata :=
  { object := { gvk := CompositionGroupVersionKind, name := "comp-1", generateName := "",
                patchSets := [{ name := "ps1", patches := [1] }], resources := [],
                payload := 0 },
    metadata := { category := Category.other } }

/-- Counterexample to C1 as stated: the patch-set converter changed the
composition's only patch-set (recorded in the returned object), yet the
returned converted flag is `false` because no composed template's base was
converted. -/
theorem c1_counterexample :
    convertComposition pgC1 oC1 0 =
      .ok ({ object := { gvk := CompositionGroupVersionKind, name := "comp-1",
                         generateName := "",
                         patchSets := [{ name := "ps1", patches := [99] }],
                         resources := [], payload := 0 },
             metadata := { category := Category.other } }, false, 0)
    ∧ ([{ name := "ps1", patches := [99] }] : List PatchSet) ≠ oC1.object.patchSets := by
  exact ⟨by decide, by decide⟩

/-- A resource converter replacing a resource by itself. -/
def pgC1W : PlanGenerator :=
  { pgBase with registry := { emptyRegistry with
      resourceConverters := fun g => if g = gvkA then some (fun mg => .ok [mg]) else none } }

/-- A composed template whose base is of the registered kind. -/
def cmpW : ComposedTemplate :=
  { name := some "t1",
    base := { gvk := gvkA, name := "b", generateName := "", payload := 5 },
    patches := [] }

/-- A composition with a single convertible composed template. -/
def oC1W : UnstructuredWithMetadata :=
  { object := { gvk := CompositionGroupVersionKind, name := "comp-w", generateName := "",
                patchSets := [], resources := [cmpW], payload := 0 },
    metadata := { category := Category.other } }

/-- The composition `oC1W` after conversion. -/
def tC1W : UnstructuredWithMetadata :=
  { object := { gvk := CompositionGroupVersionKind, name := "comp-w", generateName := "",
                patchSets := [], resources := [cmpW], payload := 0 },
    metadata := { category := Category.other } }

/-- Witness for the amended C1 theorem at a concrete converted composition. -/
theorem c1_witness :
    true = (oC1W.object.resources.any fun cmp =>
      (pgC1W.registry.resourceConverters cmp.base.gvk).isSome) :=
  c1_converted_flag_ignores_patchsets pgC1W oC1W 0 tC1W true 0 (by decide)

/-! ### C4 — configuration conversion: matching, flag and re-decoding -/

/-- Whether a configuration-converter entry has both a pattern and a
converter, and its pattern matches the object's name. -/
def entryMatches (o : UnstructuredWithMetadata) (e : ConfigurationConverterEntry) : Bool :=
  match e.re, e.converter with
  | some re, some _ => re o.object.name
  | _, _ => false

/-- The version-dispatched hook of the last matching configuration-converter
entry of the list, if any. -/
def lastMatchHook (o : UnstructuredWithMetadata) :
    List ConfigurationConverterEntry →
    Option (Configuration → Except String Configuration)
  | [] => none
  | e :: rest =>
    match lastMatchHook o rest with
    | some h => some h
    | none =>
      match e.re, e.converter with
      | some re, some conv =>
        if re o.object.name then some (versionHook o conv) else none
      | _, _ => none

lemma lastMatchHook_none_iff (o : UnstructuredWithMetadata)
    (l : List ConfigurationConverterEntry) :
    lastMatchHook o l = none ↔ l.any (entryMatches o) = false := by
  induction l with
  | nil => simp [lastMatchHook]
  | cons e rest ih =>
    rcases e with ⟨re, conv⟩
    cases hr : lastMatchHook o rest with
    | some h =>
      simp only [lastMatchHook, hr, List.any_cons]
      constructor
      · intro hh; exact absurd hh (by simp)
      · intro hh
        have := ih.mpr (by
          rcases Bool.or_eq_false_iff.mp hh with ⟨-, h2⟩
          exact h2)
        rw [this] at hr
        exact absurd hr (by simp)
    | none =>
      simp only [lastMatchHook, hr, List.any_cons]
      cases re with
      | none => simp [entryMatches, ih.mp hr]
      | some re =>
        cases conv with
        | none => simp [entryMatches, ih.mp hr]
        | some conv =>
          by_cases hm : re o.object.name = true
          · simp [entryMatches, hm, ih.mp hr]
          · simp [entryMatches, Bool.of_not_eq_true hm, ih.mp hr]

lemma convertConfigurationLoop_spec (o : UnstructuredWithMetadata)
    (l : List ConfigurationConverterEntry) :
    ∀ conf isConv conf' flag,
    convertConfigurationLoop o conf isConv l = .ok (conf', flag) →
    flag = (isConv || l.any (entryMatches o))
    ∧ conf' = (match lastMatchHook o l with
               | none => conf
               | some hk => (hk (toConfiguration o.object)).toOption) := by
  induction l with
  | nil =>
    intro conf isConv conf' flag h
    unfold convertConfigurationLoop at h
    injection h with h
    injection h with h1 h2
    exact ⟨by simp [← h2], by simp [lastMatchHook, ← h1]⟩
  | cons e rest ih =>
    intro conf isConv conf' flag h
    rcases e with ⟨re, conv⟩
    cases re with
    | none =>
      have hmain := ih conf isConv conf' flag h
      refine ⟨by simpa [entryMatches] using hmain.1, ?_⟩
      rw [hmain.2]
      simp only [lastMatchHook]
      cases lastMatchHook o rest <;> rfl
    | some re =>
      cases conv with
      | none =>
        have hmain := ih conf isConv conf' flag h
        refine ⟨by simpa [entryMatches] using hmain.1, ?_⟩
        rw [hmain.2]
        simp only [lastMatchHook]
        cases lastMatchHook o rest <;> rfl
      | some conv =>
        by_cases hm : re o.object.name = true
        · rw [show convertConfigurationLoop o conf isConv
              ({ re := some re, converter := some conv } :: rest) =
              (if re o.object.name then
                match versionHook o conv (toConfiguration o.object) with
                | .error e => .error (wrapErr
                    ("failed to call converter on Configuration: " ++
                      (toConfiguration o.object).name) e)
                | .ok c => convertConfigurationLoop o (some c) true rest
              else convertConfigurationLoop o conf isConv rest) from rfl, if_pos hm] at h
          cases hv : versionHook o conv (toConfiguration o.object) with
          | error err => rw [hv] at h; exact absurd h (by simp)
          | ok c0 =>
            rw [hv] at h
            have hmain := ih (some c0) true conf' flag h
            refine ⟨by simp [entryMatches, hm, hmain.1], ?_⟩
            rw [hmain.2]
            simp only [lastMatchHook]
            cases hr : lastMatchHook o rest with
            | some hk => rfl
            | none => simp [entryMatches, hm, hv, Except.toOption]
        · rw [show convertConfigurationLoop o conf isConv
              ({ re := some re, converter := some conv } :: rest) =
              (if re o.object.name then
                match versionHook o conv (toConfiguration o.object) with
                | .error e => .error (wrapErr
                    ("failed to call converter on Configuration: " ++
                      (toConfiguration o.object).name) e)
                | .ok c => convertConfigurationLoop o (some c) true rest
              else convertConfigurationLoop o conf isConv rest) from rfl,
            if_neg hm] at h
          have hmain := ih conf isConv conf' flag h
          refine ⟨by simp [entryMatches, Bool.of_not_eq_true hm, hmain.1], ?_⟩
          rw [hmain.2]
          simp only [lastMatchHook]
          cases hr : lastMatchHook o rest with
          | some hk => rfl
          | none => simp [entryMatches, hm]

/-- C4 (amended): the converted flag returned by `convertConfiguration` is
true iff at least one registered configuration converter has a non-nil
pattern and converter and its pattern matches the object's name; and
because the configuration is re-decoded from the original object for every
matching converter, the returned configuration is the last matching
converter's hook applied to a fresh decode of the original object — the
changes of earlier matching converters do not survive. -/
theorem c4_flag_and_last_converter (pg : PlanGenerator) (o : UnstructuredWithMetadata)
    (conf : Option Configuration) (flag : Bool)
    (h : convertConfiguration pg o = .ok (conf, flag)) :
    flag = pg.registry.configurationConverters.any (entryMatches o)
    ∧ conf = (match lastMatchHook o pg.registry.configurationConverters with
              | none => none
              | some hk => (hk (toConfiguration o.object)).toOption) := by
  have := convertConfigurationLoop_spec o pg.registry.configurationConverters
    none false conf flag h
  exact ⟨by simpa using this.1, this.2⟩

/-- What §4.4 of the spec literally says, for comparison: every matching
converter runs sequentially against the same decoded object (the
configuration is decoded once and each matching hook receives the previous
hook's output). -/
def convertConfigurationSeqLoop (o : UnstructuredWithMetadata)
    (conf : Option Configuration) (isConverted : Bool) :
    List ConfigurationConverterEntry → Except String (Option Configuration × Bool)
  | [] => .ok (conf, isConverted)
  | entry :: rest =>
    match entry.re, entry.converter with
    | some re, some conv =>
      if re o.object.name then
        let c := conf.getD (toConfiguration o.object)
        match versionHook o conv c with
        | .error e =>
          .error (wrapErr ("failed to call converter on Configuration: " ++ c.name) e)
        | .ok c => convertConfigurationSeqLoop o (some c) true rest
      else convertConfigurationSeqLoop o conf isConverted rest
    | _, _ => convertConfigurationSeqLoop o conf isConverted rest

/-- The spec-described configuration conversion (see
`convertConfigurationSeqLoop`). -/
def convertConfigurationSeq (pg : PlanGenerator) (o : UnstructuredWithMetadata) :
    Except String (Option Configuration × Bool) :=
  convertConfigurationSeqLoop o none false pg.registry.configurationConverters

/-- A configuration converter that increments the payload in both versions. -/
def confConvInc : ConfigurationConverter :=
  { configurationV1 := fun c => .ok { c with payload := c.payload + 1 },
    configurationV1Alpha1 := fun c => .ok { c with payload := c.payload + 1 } }

/-- A configuration converter that changes nothing. -/
def confConvId : ConfigurationConverter :=
  { configurationV1 := fun c => .ok c, configurationV1Alpha1 := fun c => .ok c }

/-- Two always-matching configuration converters: first the incrementing
one, then the identity. -/
def pgC4 : PlanGenerator :=
  { pgBase with registry := { emptyRegistry with
      configurationConverters :=
        [{ re := some (fun _ => true), converter := some confConvInc },
         { re := some (fun _ => true), converter := some confConvId }] } }

/-- A v1 configuration envelope. -/
def oC4 : UnstructuredWithMetadata :=
  { object := { gvk := ConfigurationGroupVersionKindV1, name := "cfg", generateName := "",
                patchSets := [], resources := [], payload := 0 },
    metadata := { category := Category.other } }

/-- Counterexample to C4 as stated: both converters match `cfg`, so under
the claim the incrementing converter's change would be visible to (and kept
through) the identity converter, giving payload 1; the code re-decodes the
original object for the second converter, so its output has payload 0 and
the first converter's change is lost.  The flag is nevertheless true. -/
theorem c4_counterexample :
    convertConfiguration pgC4 oC4 = .ok (some { name := "cfg", payload := 0 }, true)
    ∧ convertConfigurationSeq pgC4 oC4 = .ok (some { name := "cfg", payload := 1 }, true)
    ∧ convertConfiguration pgC4 oC4 ≠ convertConfigurationSeq pgC4 oC4 :=
  ⟨by decide, by decide, by decide⟩

/-- Witness for the amended C4 theorem at the concrete two-converter setup. -/
theorem c4_witness :
    (true = pgC4.registry.configurationConverters.any (entryMatches oC4))
    ∧ (some { name := "cfg", payload := 0 } =
        (match lastMatchHook oC4 pgC4.registry.configurationConverters with
         | none => none
         | some hk => (hk (toConfiguration oC4.object)).toOption)) :=
  c4_flag_and_last_converter pgC4 oC4 (some { name := "cfg", payload := 0 }) true
    (by decide)

/-! ### C2 — collision-avoidance naming on template fan-out -/

/-- The names produced when the source name has already been claimed: every
template is renamed with successive random suffixes. -/
def renameAll (orig : String) (suffix : Nat → String) : Nat → List String → List (Option String)
  | _, [] => []
  | rnd, _ :: ks => some (orig ++ "-" ++ suffix rnd) :: renameAll orig suffix (rnd + 1) ks

/-- The amended naming rule, stated positionally: the first produced
template whose kind equals the source kind keeps the original name; every
other produced template receives the original name plus the next random
suffix. -/
def amendedNames (orig : String) (suffix : Nat → String) (srcKind : String) :
    Nat → List String → List (Option String)
  | _, [] => []
  | rnd, k :: ks =>
    if k = srcKind then some orig :: renameAll orig suffix rnd ks
    else some (orig ++ "-" ++ suffix rnd) :: amendedNames orig suffix srcKind (rnd + 1) ks

lemma suffixed_ne (s mid suf : String) (hmid : mid.length ≠ 0) : s ++ mid ++ suf ≠ s := by
  intro h
  have := congrArg String.length h
  rw [String.length_append, String.length_append] at this
  omega

lemma renameAll_count (orig : String) (suffix : Nat → String) (rnd : Nat)
    (ks : List String) :
    (renameAll orig suffix rnd ks).count (some orig) = 0 := by
  induction ks generalizing rnd with
  | nil => rfl
  | cons k ks ih =>
    rw [renameAll, List.count_cons]
    have hne : orig ++ "-" ++ suffix rnd ≠ orig :=
      suffixed_ne orig "-" (suffix rnd) (by decide)
    simp [ih, hne]

lemma renameAll_length (orig : String) (suffix : Nat → String) (rnd : Nat)
    (ks : List String) : (renameAll orig suffix rnd ks).length = ks.length := by
  induction ks generalizing rnd with
  | nil => rfl
  | cons k ks ih => simp [renameAll, ih]

lemma amendedNames_count (orig : String) (suffix : Nat → String) (srcKind : String)
    (rnd : Nat) (ks : List String) :
    (amendedNames orig suffix srcKind rnd ks).count (some orig) =
      (if srcKind ∈ ks then 1 else 0) := by
  induction ks generalizing rnd with
  | nil => rfl
  | cons k ks ih =>
    by_cases hk : k = srcKind
    · subst hk
      rw [amendedNames, if_pos rfl, List.count_cons]
      simp [renameAll_count]
    · rw [amendedNames, if_neg hk, List.count_cons]
      have hne : orig ++ "-" ++ suffix rnd ≠ orig :=
        suffixed_ne orig "-" (suffix rnd) (by decide)
      simp [ih, hne, List.mem_cons, Ne.symm hk, hk]

lemma setDefaults_named_rename (pg : PlanGenerator) (s : String) (used : Bool)
    (gS gT : GroupVersionKind) (target : ComposedTemplate) (rnd : Nat)
    (t' : ComposedTemplate) (used' : Bool) (rnd' : Nat)
    (hskip : isGVKSkipped pg gS = false) (hs : s.length > 0)
    (hcond : (used || gS.kind != gT.kind) = true)
    (h : setDefaultsOnTargetTemplate pg (some s) used gS gT target rnd =
      .ok (t', used', rnd')) :
    t'.name = some (s ++ "-" ++ pg.randomSuffix rnd) ∧ used' = used ∧ rnd' = rnd + 1 := by
  unfold setDefaultsOnTargetTemplate at h
  split at h
  · rename_i hsk
    exact absurd hsk (by simp [hskip])
  · split at h
    · exact absurd h (by simp)
    · rename_i target₁ hrip
      dsimp only at h
      rw [if_pos hs] at h
      injection h with h
      injection h with h1 h2
      injection h2 with h2 h3
      exact ⟨by rw [← h1], h2.symm, h3.symm⟩

lemma setDefaults_named_keep (pg : PlanGenerator) (s : String) (used : Bool)
    (gS gT : GroupVersionKind) (target : ComposedTemplate) (rnd : Nat)
    (t' : ComposedTemplate) (used' : Bool) (rnd' : Nat)
    (hskip : isGVKSkipped pg gS = false)
    (hcond : (used || gS.kind != gT.kind) = false)
    (h : setDefaultsOnTargetTemplate pg (some s) used gS gT target rnd =
      .ok (t', used', rnd')) :
    t'.name = target.name ∧ used' = true ∧ rnd' = rnd := by
  unfold setDefaultsOnTargetTemplate at h
  split at h
  · rename_i hsk
    exact absurd hsk (by simp [hskip])
  · split at h
    · exact absurd h (by simp)
    · rename_i target₁ hrip
      have hname := removeInvalidPatches_name pg gS gT target target₁ hrip
      rw [if_neg (by rw [hcond]; exact Bool.false_ne_true)] at h
      injection h with h
      injection h with h1 h2
      injection h2 with h2 h3
      exact ⟨by rw [← h1]; exact hname, h2.symm, h3.symm⟩

lemma defaultTemplates_renameAll (pg : PlanGenerator) (cmp : ComposedTemplate)
    (gvkSource : GroupVersionKind) (s : String)
    (hname : cmp.name = some s) (hs : s.length > 0)
    (hskip : isGVKSkipped pg gvkSource = false) :
    ∀ us rnd cs used' rnd',
    defaultTemplates pg cmp gvkSource us true rnd = .ok (cs, used', rnd') →
    cs.map (fun c => c.name) =
      renameAll s pg.randomSuffix rnd (us.map fun u => u.object.gvk.kind)
    ∧ used' = true ∧ rnd' = rnd + us.length := by
  intro us
  induction us with
  | nil =>
    intro rnd cs used' rnd' h
    unfold defaultTemplates at h
    injection h with h
    injection h with h1 h2
    injection h2 with h2 h3
    exact ⟨by rw [← h1]; rfl, h2.symm, by rw [← h3]; rfl⟩
  | cons u us ih =>
    intro rnd cs used' rnd' h
    cases hsd : setDefaultsOnTargetTemplate pg cmp.name true gvkSource u.object.gvk
        { cmp with base := toRawExtension u.object } rnd with
    | error e =>
      simp only [defaultTemplates, hsd] at h
      exact Except.noConfusion h
    | ok res =>
      obtain ⟨c₁, used₁, rnd₁⟩ := res
      have hsd' := hsd
      rw [hname] at hsd'
      have hren := setDefaults_named_rename pg s true gvkSource u.object.gvk _ rnd
        c₁ used₁ rnd₁ hskip hs (by simp) hsd'
      obtain ⟨hc₁, hused₁, hrnd₁⟩ := hren
      subst hused₁
      subst hrnd₁
      cases hrec : defaultTemplates pg cmp gvkSource us true (rnd + 1) with
      | error e =>
        simp only [defaultTemplates, hsd, hrec] at h
        exact Except.noConfusion h
      | ok res₂ =>
        obtain ⟨cs₂, used₂, rnd₂⟩ := res₂
        simp only [defaultTemplates, hsd, hrec, Except.ok.injEq, Prod.mk.injEq] at h
        obtain ⟨hcs, hu, hr⟩ := h
        have htail := ih (rnd + 1) cs₂ used₂ rnd₂ hrec
        rw [← hcs, ← hu, ← hr]
        refine ⟨?_, htail.2.1, ?_⟩
        · rw [List.map_cons, htail.1, hc₁]
          rfl
        · rw [htail.2.2]
          simp only [List.length_cons]
          omega

lemma defaultTemplates_amendedNames (pg : PlanGenerator) (cmp : ComposedTemplate)
    (gvkSource : GroupVersionKind) (s : String)
    (hname : cmp.name = some s) (hs : s.length > 0)
    (hskip : isGVKSkipped pg gvkSource = false) :
    ∀ us rnd cs used' rnd',
    defaultTemplates pg cmp gvkSource us false rnd = .ok (cs, used', rnd') →
    cs.map (fun c => c.name) =
      amendedNames s pg.randomSuffix gvkSource.kind rnd
        (us.map fun u => u.object.gvk.kind) := by
  intro us
  induction us with
  | nil =>
    intro rnd cs used' rnd' h
    unfold defaultTemplates at h
    injection h with h
    injection h with h1 h2
    rw [← h1]
    rfl
  | cons u us ih =>
    intro rnd cs used' rnd' h
    cases hsd : setDefaultsOnTargetTemplate pg cmp.name false gvkSource u.object.gvk
        { cmp with base := toRawExtension u.object } rnd with
    | error e =>
      simp only [defaultTemplates, hsd] at h
      exact Except.noConfusion h
    | ok res =>
      obtain ⟨c₁, used₁, rnd₁⟩ := res
      have hsd' := hsd
      rw [hname] at hsd'
      by_cases hk : u.object.gvk.kind = gvkSource.kind
      · -- the kind matches and the name is not yet used: keep the original name
        have hkeep := setDefaults_named_keep pg s false gvkSource u.object.gvk _ rnd
          c₁ used₁ rnd₁ hskip (by simp [hk]) hsd'
        obtain ⟨hc₁, hused₁, hrnd₁⟩ := hkeep
        cases hrec : defaultTemplates pg cmp gvkSource us used₁ rnd₁ with
        | error e =>
          simp only [defaultTemplates, hsd, hrec] at h
          exact Except.noConfusion h
        | ok res₂ =>
          obtain ⟨cs₂, used₂, rnd₂⟩ := res₂
          simp only [defaultTemplates, hsd, hrec, Except.ok.injEq, Prod.mk.injEq] at h
          obtain ⟨hcs, -, -⟩ := h
          have hrec₂ := hrec
          rw [hused₁, hrnd₁] at hrec₂
          have htail := defaultTemplates_renameAll pg cmp gvkSource s hname hs hskip
            us rnd cs₂ used₂ rnd₂ hrec₂
          rw [← hcs, List.map_cons, htail.1, hc₁]
          rw [List.map_cons]
          rw [amendedNames, if_pos hk]
      · -- the kind differs: this template is renamed and the flag is unchanged
        have hren := setDefaults_named_rename pg s false gvkSource u.object.gvk _ rnd
          c₁ used₁ rnd₁ hskip hs
          (by simp [bne_iff_ne]; exact fun hh => hk hh.symm) hsd'
        obtain ⟨hc₁, hused₁, hrnd₁⟩ := hren
        cases hrec : defaultTemplates pg cmp gvkSource us used₁ rnd₁ with
        | error e =>
          simp only [defaultTemplates, hsd, hrec] at h
          exact Except.noConfusion h
        | ok res₂ =>
          obtain ⟨cs₂, used₂, rnd₂⟩ := res₂
          simp only [defaultTemplates, hsd, hrec, Except.ok.injEq, Prod.mk.injEq] at h
          obtain ⟨hcs, -, -⟩ := h
          have hrec₂ := hrec
          rw [hused₁, hrnd₁] at hrec₂
          have htail := ih (rnd + 1) cs₂ used₂ rnd₂ hrec₂
          rw [← hcs, List.map_cons, htail, hc₁]
          rw [List.map_cons]
          rw [amendedNames, if_neg hk]

/-- C2 (amended): for a non-empty-named, non-skipped composed template
fanned out into N produced templates, the first produced template whose
resulting kind equals the source kind keeps the original name, and every
other produced template (later same-kind ones, and all templates whose
kind differs — including a kind-changed template that comes first) receives
the original name plus the next random suffix; consequently exactly one
produced template carries the original name when some produced kind matches
the source kind, and none otherwise — every generated name differs from the
original. -/
theorem c2_fanout_naming (pg : PlanGenerator) (cmp : ComposedTemplate)
    (gvkSource : GroupVersionKind) (s : String) (us : List UnstructuredWithMetadata)
    (rnd : Nat) (cs : List ComposedTemplate) (used' : Bool) (rnd' : Nat)
    (hname : cmp.name = some s) (hs : s ≠ "")
    (hskip : isGVKSkipped pg gvkSource = false)
    (h : defaultTemplates pg cmp gvkSource us false rnd = .ok (cs, used', rnd')) :
    cs.map (fun c => c.name) =
      amendedNames s pg.randomSuffix gvkSource.kind rnd
        (us.map fun u => u.object.gvk.kind)
    ∧ (cs.map (fun c => c.name)).count (some s) =
      (if gvkSource.kind ∈ us.map (fun u => u.object.gvk.kind) then 1 else 0) := by
  have hlen : s.length > 0 := by
    rcases Nat.eq_zero_or_pos s.length with h0 | h0
    · exact absurd ((stringLengthEqZero s).mp h0) hs
    · exact h0
  have hmain := defaultTemplates_amendedNames pg cmp gvkSource s hname hlen hskip
    us rnd cs used' rnd' h
  refine ⟨hmain, ?_⟩
  rw [hmain]
  exact amendedNames_count s pg.randomSuffix gvkSource.kind rnd _

/-- A resource converter for `gvkA` that splits a resource into a `gvkB`
copy followed by a `gvkA` copy. -/
def pgC2 : PlanGenerator :=
  { pgBase with registry := { emptyRegistry with
      resourceConverters := fun g =>
        if g = gvkA then some (fun mg => .ok [{ mg with gvk := gvkB }, mg]) else none } }

/-- A named composed template with a `gvkA` base. -/
def cmpC2 : ComposedTemplate :=
  { name := some "orig",
    base := { gvk := gvkA, name := "b", generateName := "", payload := 5 },
    patches := [] }

/-- A composition holding the single template `cmpC2`. -/
def oC2 : UnstructuredWithMetadata :=
  { object := { gvk := CompositionGroupVersionKind, name := "comp-2", generateName := "",
                patchSets := [], resources := [cmpC2], payload := 0 },
    metadata := { category := Category.other } }

/-- Counterexample to C2 as stated: converting `cmpC2` fans out into a
`gvkB`-kind template followed by a `gvkA`-kind template.  The first
produced template does NOT keep the original name `orig` — it is renamed
(kind change), while the original name goes to the second produced
template, whose kind matches the source kind. -/
theorem c2_counterexample :
    convertComposition pgC2 oC2 0 =
      .ok ({ object := { gvk := CompositionGroupVersionKind, name := "comp-2",
                         generateName := "", patchSets := [],
                         resources :=
                           [{ name := some "orig-abcde",
                              base := { gvk := gvkB, name := "b", generateName := "",
                                        payload := 5 },
                              patches := [] },
                            { name := some "orig",
                              base := { gvk := gvkA, name := "b", generateName := "",
                                        payload := 5 },
                              patches := [] }],
                         payload := 0 },
             metadata := { category := Category.other } }, true, 1)
    ∧ (some "orig-abcde" : Option String) ≠ some "orig" :=
  ⟨by decide, by decide⟩

/-- Witness for the amended C2 theorem at the concrete two-kind fan-out. -/
theorem c2_witness :
    ([{ name := some "tmpl-abcde",
        base := { gvk := gvkB, name := "r1", generateName := "", payload := 1 },
        patches := [0, 1] },
      { name := some "tmpl",
        base := { gvk := gvkA, name := "r2", generateName := "", payload := 2 },
        patches := [0, 1] }] : List ComposedTemplate).map (fun c => c.name) =
      amendedNames "tmpl" pgBase.randomSuffix gvkA.kind 0
        (usFanOut.map fun u => u.object.gvk.kind)
    ∧ (([{ name := some "tmpl-abcde",
           base := { gvk := gvkB, name := "r1", generateName := "", payload := 1 },
           patches := [0, 1] },
         { name := some "tmpl",
           base := { gvk := gvkA, name := "r2", generateName := "", payload := 2 },
           patches := [0, 1] }] : List ComposedTemplate).map (fun c => c.name)).count
        (some "tmpl") =
      (if gvkA.kind ∈ usFanOut.map (fun u => u.object.gvk.kind) then 1 else 0) :=
  c2_fanout_naming pgBase cmpFix gvkA "tmpl" usFanOut 0 _ true 1 rfl (by decide)
    (by decide) (by decide)

/-! ### C3 — missing GVK on converter output aborts before any step -/

/-- C3: when the registered converter's output contains a resource with the
zero type identifier, resource conversion fails with the missing-GVK
contract-violation error and the generation run aborts at that object with
the state unchanged — in particular no `NewManagedResource` or
`StartManagedResource` step is recorded for it (the returned state is
exactly the state from before the object was processed). -/
theorem c3_missing_gvk_aborts (pg : PlanGenerator) (o : UnstructuredWithMetadata)
    (rest : SourceStream) (st : ConvState) (conv : ResourceConverter)
    (mg : Resource) (b : Bool) (rs : List Resource)
    (h1 : o.object.gvk ≠ ConfigurationGroupVersionKindV1)
    (h2 : o.object.gvk ≠ ConfigurationGroupVersionKindV1Alpha1)
    (h3 : o.object.gvk ≠ CompositionGroupVersionKind)
    (h4 : o.metadata.category ≠ Category.composite)
    (h5 : o.metadata.category ≠ Category.claim)
    (h6 : pg.registry.resourceConverters o.object.gvk = some conv)
    (h7 : pg.registry.scheme o.object = .ok (mg, b))
    (h8 : conv mg = .ok rs)
    (h9 : rs.any (fun r => r.gvk.isZero) = true) :
    convert pg (.ok o :: rest) st =
      (st, some (wrapErr errResourceMigrate (wrapErr errResourceMigrate errMissingGVK))) := by
  have hcr : convertResource pg o false =
      (none, true, some (wrapErr errResourceMigrate errMissingGVK)) := by
    simp [convertResource, h6, h7, h8, assertGVK, h9]
  have hpr : processResource pg st o =
      (st, some (wrapErr errResourceMigrate (wrapErr errResourceMigrate errMissingGVK))) := by
    simp only [processResource, hcr]
  have hpo : processObject pg st o =
      (st, some (wrapErr errResourceMigrate (wrapErr errResourceMigrate errMissingGVK))) := by
    simp only [processObject]
    rw [if_neg (by rintro (hh | hh) <;> [exact h1 hh; exact h2 hh]),
      if_neg h3, if_neg h4, if_neg h5, hpr]
    simp [runAddSteps, andThen]
  simp only [convert, convertLoop, hpo, andThen]

/-- Witness for C3: the GVK-forgetting converter of `pgNoGVK` applied to a
single-object source aborts generation with the missing-GVK error and an
unchanged (initial) state. -/
theorem c3_witness :
    convert pgNoGVK [.ok oMR] initState =
      (initState,
       some (wrapErr errResourceMigrate (wrapErr errResourceMigrate errMissingGVK))) :=
  c3_missing_gvk_aborts pgNoGVK oMR [] initState
    (fun mg => .ok [{ mg with gvk := ⟨"", "", ""⟩ }])
    { gvk := gvkA, name := "my-vpc", generateName := "", payload := 7 } true
    [{ gvk := ⟨"", "", ""⟩, name := "my-vpc", generateName := "", payload := 7 }]
    (by decide) (by decide) (by decide) (by decide) (by decide)
    (by rfl) (by rfl) (by rfl) (by decide)

/-! ### C7 — composition handling in the main pass -/

/-- C7: when a composition object's conversion reports converted, the main
pass records the old-name-to-`<name>-migrated` mapping, renames the
converted composition accordingly, and emits a `NewComposition` step for
the renamed result (then the external per-object collaborator adds its
steps); when conversion reports not converted, no mapping is recorded and
no `NewComposition` step is emitted — only the random-stream position and
the collaborator's steps change. -/
theorem c7_composition_rename_and_step (pg : PlanGenerator) (st : ConvState)
    (o : UnstructuredWithMetadata) (target : UnstructuredWithMetadata) (rnd' : Nat)
    (es : List Step)
    (hgvk : o.object.gvk = CompositionGroupVersionKind)
    (hadd : pg.addStepsForMR o = .ok es) :
    (convertComposition pg o st.rnd = .ok (target, true, rnd') →
      pg.targetSink (.newComposition { target with object :=
        { target.object with name := o.object.name ++ "-migrated" } }) = none →
      processObject pg st o =
        ({ st with
           rnd := rnd'
           convertedComposition := st.convertedComposition ++
             [(o.object.name, o.object.name ++ "-migrated")]
           plan := es.foldl addStep (addStep st.plan (.newComposition
             { target with object :=
               { target.object with name := o.object.name ++ "-migrated" } })) }, none))
    ∧ (convertComposition pg o st.rnd = .ok (target, false, rnd') →
      processObject pg st o =
        ({ st with rnd := rnd', plan := es.foldl addStep st.plan }, none)) := by
  constructor
  · intro hconv hsink
    simp only [processObject]
    rw [if_neg (by rw [hgvk]; decide), if_pos hgvk]
    simp only [processComposition, hconv]
    simp only [emitStep, hsink, mapErr]
    simp only [runAddSteps, andThen, hadd]
    simp
  · intro hconv
    simp only [processObject]
    rw [if_neg (by rw [hgvk]; decide), if_pos hgvk]
    simp only [processComposition, hconv]
    simp only [runAddSteps, andThen, hadd]
    simp

/-- A composition envelope with a single convertible (`gvkA`) template. -/
def oC7 : UnstructuredWithMetadata :=
  { object := { gvk := CompositionGroupVersionKind, name := "comp-w", generateName := "",
                patchSets := [], resources := [cmpW], payload := 0 },
    metadata := { category := Category.other } }

/-- `oC7` converted (the identity resource converter of `pgC1W` leaves the
template list unchanged). -/
def tC7 : UnstructuredWithMetadata :=
  { object := { gvk := CompositionGroupVersionKind, name := "comp-w", generateName := "",
                patchSets := [], resources := [cmpW], payload := 0 },
    metadata := { category := Category.other } }

/-- Witness for C7: the converted case at `pgC1W` (mapping recorded, step
emitted, rename applied), and the unconverted case at `pgBase` (nothing
recorded or emitted). -/
theorem c7_witness :
    processObject pgC1W initState oC7 =
      ({ initState with
         rnd := 0
         convertedComposition := initState.convertedComposition ++
           [(oC7.object.name, oC7.object.name ++ "-migrated")]
         plan := ([] : List Step).foldl addStep (addStep initState.plan (.newComposition
           { tC7 with object :=
             { tC7.object with name := oC7.object.name ++ "-migrated" } })) }, none)
    ∧ processObject pgBase initState oC7 =
      ({ initState with
         rnd := 0
         plan := ([] : List Step).foldl addStep initState.plan }, none) :=
  ⟨(c7_composition_rename_and_step pgC1W initState oC7 tC7 0 [] (by decide)
      (by rfl)).1 (by decide) (by rfl),
   (c7_composition_rename_and_step pgBase initState oC7 tC7 0 [] (by decide)
      (by rfl)).2 (by decide)⟩

end Migration
